import Mathlib

/-!
Shallow embedding of `src/plugins/capture-website/src/index.ts`
(koishijs/dup4-plugins, plugin `capture-website`).

The embedded core is the option-resolution and invocation pipeline:
`isUrl`, `makeOptions`, and `render`.  JavaScript semantics relevant to
this code are made explicit:

* JavaScript numbers are modelled by `JsNum` (either NaN or a rational);
  the claims only exercise integral values, so idealizing IEEE doubles by
  rationals is faithful on every input that appears in a claim.
* JavaScript truthiness tests (`!options.viewport` and friends) are
  modelled by `jsTruthyStr`, `jsTruthyNum`, `jsTruthyBool`:
  `undefined`, `""`, `0` and `NaN` are falsy.
* In-place mutation of the `options` record is modelled by explicit
  record threading: each statement of `makeOptions` becomes a function
  `Options → Options`.
* Thrown exceptions are modelled by `Except JsError`.
* The external collaborators (`findChrome` from `chrome-finder`,
  `captureWebsite.buffer` from `capture-website`) are parameters: a
  discovery result `Except JsError String` and an engine function.
-/

/-- A JavaScript `Error` value, carrying its message. -/
structure JsError where
  message : String
deriving DecidableEq

/-- A JavaScript number: NaN or a (rational-idealized) numeric value. -/
inductive JsNum where
  | nan
  | num (v : ℚ)
deriving DecidableEq

/-- Image type union `"png" | "jpeg" | "webp"` from the `Options` interface. -/
inductive ImgType where
  | png
  | jpeg
  | webp
deriving DecidableEq

/-- `config.browser.defaultViewport` (widths are `Schema.natural()`,
the scale factor is `Schema.number().min(0)`). -/
structure DefaultViewport where
  width : ℕ
  height : ℕ
  deviceScaleFactor : ℚ
deriving DecidableEq

/-- `BrowserConfig` from the source. -/
structure BrowserConfig where
  defaultViewport : DefaultViewport
  proxyServer : Option String := none
deriving DecidableEq

/-- `Config` from the source. -/
structure Config where
  browser : BrowserConfig
deriving DecidableEq

/-- `defaultConfig` from the source. -/
def defaultConfig : Config :=
  { browser := { defaultViewport := { width := 1280, height := 800, deviceScaleFactor := 2 } } }

/-- The `launchOptions` object built by `makeOptions`. -/
structure LaunchOptions where
  args : List String
  executablePath : String
  defaultViewport : DefaultViewport
deriving DecidableEq

/-- The `Options` interface from the source, together with the fields
`makeOptions` and `render` write dynamically (`launchOptions`, `width`,
`height`, `inputType`).  Absent fields are `none` (JS `undefined`). -/
structure Options where
  viewport : Option String := none
  fullPage : Option Bool := none
  darkMode : Option Bool := none
  type : Option ImgType := none
  quality : Option JsNum := none
  scaleFactor : Option JsNum := none
  timeout : Option JsNum := none
  delay : Option JsNum := none
  waitForElement : Option String := none
  element : Option String := none
  hideElements : Option String := none
  removeElements : Option String := none
  clickElement : Option String := none
  scrollToElement : Option String := none
  disableAnimations : Option Bool := none
  noJavascript : Option Bool := none
  script : Option String := none
  style : Option String := none
  header : Option String := none
  userAgent : Option String := none
  cookie : Option String := none
  authentication : Option String := none
  clip : Option String := none
  inset : Option String := none
  launchOptions : Option LaunchOptions := none
  width : Option JsNum := none
  height : Option JsNum := none
  inputType : Option String := none
deriving DecidableEq

/-- JS truthiness of an optional string: `undefined` and `""` are falsy. -/
def jsTruthyStr : Option String → Bool
  | none => false
  | some s => decide (s ≠ "")

/-- JS truthiness of an optional number: `undefined`, `0` and `NaN` are falsy. -/
def jsTruthyNum : Option JsNum → Bool
  | none => false
  | some JsNum.nan => false
  | some (JsNum.num q) => decide (q ≠ 0)

/-- JS truthiness of an optional boolean: `undefined` and `false` are falsy. -/
def jsTruthyBool : Option Bool → Bool
  | none => false
  | some b => b

/-- JS `String.prototype.split` with a single-character separator,
on the character list of the string.  Always returns at least one
(possibly empty) segment. -/
def splitOnChar (sep : Char) : List Char → List (List Char)
  | [] => [[]]
  | c :: cs =>
    let rest := splitOnChar sep cs
    if c = sep then [] :: rest
    else
      match rest with
      | [] => [[c]]
      | t :: ts => (c :: t) :: ts

/-- Value of a list of decimal digit characters, most significant first. -/
def digitsVal (cs : List Char) : ℕ :=
  cs.foldl (fun acc c => 10 * acc + (c.toNat - Char.toNat '0')) 0

/-- JS `ToNumber` on a string (the unary `+` in `+viewport[0]`),
restricted to the string shapes this program distinguishes: the empty
string converts to `0`, a non-empty string of ASCII decimal digits to its
value, and every other string occurring in the claims to `NaN`. -/
def jsToNumber (cs : List Char) : JsNum :=
  if cs = [] then JsNum.num 0
  else if cs.all Char.isDigit then JsNum.num (digitsVal cs)
  else JsNum.nan

/-- JS `ToNumber` applied to a possibly-undefined segment:
`ToNumber(undefined) = NaN`. -/
def jsToNumberOpt : Option (List Char) → JsNum
  | none => JsNum.nan
  | some cs => jsToNumber cs

/-- The template literal `` `${width}x${height}` `` built from the
config's default viewport. -/
def defaultViewportString (config : Config) : String :=
  Nat.repr config.browser.defaultViewport.width ++ "x"
    ++ Nat.repr config.browser.defaultViewport.height

/-- `if (!options.viewport) { options.viewport = `${w}x${h}`; }` -/
def resolveViewport (options : Options) (config : Config) : Options :=
  if jsTruthyStr options.viewport = false then
    { options with viewport := some (defaultViewportString config) }
  else options

/-- `if (!options.scaleFactor) { options.scaleFactor = config.browser.defaultViewport.deviceScaleFactor; }` -/
def resolveScaleFactor (options : Options) (config : Config) : Options :=
  if jsTruthyNum options.scaleFactor = false then
    { options with
        scaleFactor := some (JsNum.num config.browser.defaultViewport.deviceScaleFactor) }
  else options

/-- `if (!options.type) { options.type = "png"; }` (an absent union-typed
string is the only falsy case). -/
def resolveType (options : Options) : Options :=
  if options.type.isNone then { options with type := some ImgType.png } else options

/-- `if (!options.quality && options.type !== "png") { options.quality = 1; }` -/
def resolveQuality (options : Options) : Options :=
  if jsTruthyNum options.quality = false ∧ options.type ≠ some ImgType.png then
    { options with quality := some (JsNum.num 1) }
  else options

/-- `if (!options.timeout) { options.timeout = 60; }` -/
def resolveTimeout (options : Options) : Options :=
  if jsTruthyNum options.timeout = false then
    { options with timeout := some (JsNum.num 60) }
  else options

/-- `if (!options.delay) { options.delay = 0; }` -/
def resolveDelay (options : Options) : Options :=
  if jsTruthyNum options.delay = false then
    { options with delay := some (JsNum.num 0) }
  else options

/-- `if (!options.disableAnimations) { options.disableAnimations = false; }` -/
def resolveDisableAnimations (options : Options) : Options :=
  if jsTruthyBool options.disableAnimations = false then
    { options with disableAnimations := some false }
  else options

/-- `options.launchOptions = { args: [], executablePath: findChrome(), defaultViewport: ... }`
followed by the conditional `args.push(`--proxy-server=${...}`)`. -/
def setLaunchOptions (options : Options) (config : Config) (executablePath : String) : Options :=
  let args : List String := []
  let args :=
    if jsTruthyStr config.browser.proxyServer then
      args ++ ["--proxy-server=" ++ config.browser.proxyServer.getD ""]
    else args
  { options with
      launchOptions :=
        some { args := args, executablePath := executablePath,
               defaultViewport := config.browser.defaultViewport } }

/-- `if (options.viewport) { const viewport = options.viewport.split("x"); ... }` -/
def parseViewport (options : Options) : Options :=
  if jsTruthyStr options.viewport then
    let viewport := splitOnChar 'x' (options.viewport.getD "").data
    let width := jsToNumberOpt (viewport.get? 0)
    let height := jsToNumberOpt (viewport.get? 1)
    { options with width := some width, height := some height }
  else options

/-- `makeOptions(options, config)` from the source.  `findChromeResult`
is the outcome of the external `findChrome()` call made while building
`launchOptions`; if it throws, the exception propagates out of
`makeOptions`. -/
def makeOptions (findChromeResult : Except JsError String) (options : Options)
    (config : Config) : Except JsError Options :=
  let options := resolveViewport options config
  let options := resolveScaleFactor options config
  let options := resolveType options
  let options := resolveQuality options
  let options := resolveTimeout options
  let options := resolveDelay options
  let options := resolveDisableAnimations options
  match findChromeResult with
  | Except.error e => Except.error e
  | Except.ok executablePath =>
    Except.ok (parseViewport (setLaunchOptions options config executablePath))

/-!
The input classifier `isUrl = (s) => /^(https?|file):\/\/|^data:/.test(s)`.
The regular expression is embedded as a datatype with Brzozowski-derivative
matching.  Both alternatives of the source pattern are anchored with `^`,
so `RegExp.prototype.test` succeeds exactly when the unanchored body
matches some prefix of the subject starting at position 0; `reTest` is
that prefix-matching semantics.
-/

/-- Regular expressions: empty language, empty string, single character,
concatenation, alternation (all the constructs the source pattern uses;
`s?` is encoded as `alt (chr 's') eps`). -/
inductive RE where
  | emp
  | eps
  | chr (c : Char)
  | cat (a b : RE)
  | alt (a b : RE)

/-- Does the regular expression accept the empty string? -/
def nullable : RE → Bool
  | RE.emp => false
  | RE.eps => true
  | RE.chr _ => false
  | RE.cat a b => nullable a && nullable b
  | RE.alt a b => nullable a || nullable b

/-- Brzozowski derivative with respect to one character. -/
def rderiv : RE → Char → RE
  | RE.emp, _ => RE.emp
  | RE.eps, _ => RE.emp
  | RE.chr c, d => if d = c then RE.eps else RE.emp
  | RE.cat a b, d =>
    if nullable a then RE.alt (RE.cat (rderiv a d) b) (rderiv b d)
    else RE.cat (rderiv a d) b
  | RE.alt a b, d => RE.alt (rderiv a d) (rderiv b d)

/-- Does the regular expression match some prefix of the input
(the semantics of `test` for a `^`-anchored pattern)? -/
def reTest : RE → List Char → Bool
  | r, [] => nullable r
  | r, c :: cs => nullable r || reTest (rderiv r c) cs

/-- Language semantics of a regular expression. -/
def Matches : RE → List Char → Prop
  | RE.emp, _ => False
  | RE.eps, s => s = []
  | RE.chr c, s => s = [c]
  | RE.cat a b, s => ∃ u v, s = u ++ v ∧ Matches a u ∧ Matches b v
  | RE.alt a b, s => Matches a s ∨ Matches b s

/-- Literal word as a regular expression. -/
def lit : List Char → RE
  | [] => RE.eps
  | c :: cs => RE.cat (RE.chr c) (lit cs)

/-- The source pattern `^(https?|file):\/\/|^data:` (anchors dropped,
handled by the prefix semantics of `reTest`). -/
def urlRE : RE :=
  RE.alt
    (RE.cat
      (RE.alt (RE.cat (lit "http".data) (RE.alt (RE.chr 's') RE.eps)) (lit "file".data))
      (lit "://".data))
    (lit "data:".data)

/-- `const isUrl = (s) => /^(https?|file):\/\/|^data:/.test(s);` -/
def isUrl (s : String) : Bool :=
  reTest urlRE s.data

/-- The fully resolved capture request `render` hands to the capture
engine: `makeOptions` followed by
`if (!isUrl(urlOrContent)) { options.inputType = "html"; }`.
Also models `if (!config) { config = defaultConfig; }`. -/
def renderRequest (findChromeResult : Except JsError String) (urlOrContent : String)
    (options : Options) (config : Option Config) : Except JsError Options :=
  let config := match config with
    | none => defaultConfig
    | some c => c
  match makeOptions findChromeResult options config with
  | Except.error e => Except.error e
  | Except.ok options =>
    Except.ok (if isUrl urlOrContent then options
               else { options with inputType := some "html" })

/-- `render(urlOrContent, options, config)` from the source.
`captureBuffer` is the external `captureWebsite.buffer`; any error it
throws is caught and replaced by `new Error("capture website failed.")`.
`β` is the engine's image-buffer type. -/
def render {β : Type} (findChromeResult : Except JsError String)
    (captureBuffer : String → Options → Except JsError β)
    (urlOrContent : String) (options : Options) (config : Option Config) :
    Except JsError β :=
  match renderRequest findChromeResult urlOrContent options config with
  | Except.error e => Except.error e
  | Except.ok request =>
    match captureBuffer urlOrContent request with
    | Except.ok image => Except.ok image
    | Except.error _ => Except.error { message := "capture website failed." }

/-!  Canonical record-update forms of the resolution steps. -/

/-- The viewport string after defaulting: the caller's when truthy,
else the config-derived `"WxH"` string. -/
def resolvedViewportString (o : Options) (c : Config) : String :=
  if jsTruthyStr o.viewport then o.viewport.getD "" else defaultViewportString c

theorem resolveViewport_eq (o : Options) (c : Config) :
    resolveViewport o c = { o with viewport := some (resolvedViewportString o c) } := by
  unfold resolveViewport resolvedViewportString
  cases h : jsTruthyStr o.viewport with
  | false => simp [h]
  | true =>
    cases hv : o.viewport with
    | none => simp [jsTruthyStr, hv] at h
    | some s =>
      simp only [h, Bool.true_eq_false, if_false, if_true, hv, Option.getD_some]
      rw [← hv]

theorem resolveScaleFactor_eq (o : Options) (c : Config) :
    resolveScaleFactor o c =
      { o with
          scaleFactor :=
            if jsTruthyNum o.scaleFactor then o.scaleFactor
            else some (JsNum.num c.browser.defaultViewport.deviceScaleFactor) } := by
  unfold resolveScaleFactor
  cases h : jsTruthyNum o.scaleFactor <;> simp [h]

theorem resolveType_eq (o : Options) :
    resolveType o = { o with type := some (o.type.getD ImgType.png) } := by
  unfold resolveType
  cases h : o.type with
  | none => simp [h]
  | some t =>
    simp only [h, Option.isNone_some, Bool.false_eq_true, if_false, Option.getD_some]
    rw [← h]

theorem resolveQuality_eq (o : Options) :
    resolveQuality o =
      { o with
          quality :=
            if jsTruthyNum o.quality = false ∧ o.type ≠ some ImgType.png then
              some (JsNum.num 1)
            else o.quality } := by
  unfold resolveQuality
  by_cases h : jsTruthyNum o.quality = false ∧ o.type ≠ some ImgType.png <;> simp [h]

theorem resolveTimeout_eq (o : Options) :
    resolveTimeout o =
      { o with timeout := if jsTruthyNum o.timeout then o.timeout else some (JsNum.num 60) } := by
  unfold resolveTimeout
  cases h : jsTruthyNum o.timeout <;> simp [h]

theorem resolveDelay_eq (o : Options) :
    resolveDelay o =
      { o with delay := if jsTruthyNum o.delay then o.delay else some (JsNum.num 0) } := by
  unfold resolveDelay
  cases h : jsTruthyNum o.delay <;> simp [h]

theorem resolveDisableAnimations_eq (o : Options) :
    resolveDisableAnimations o =
      { o with disableAnimations := some (o.disableAnimations.getD false) } := by
  unfold resolveDisableAnimations
  cases hv : o.disableAnimations with
  | none => simp [jsTruthyBool, hv]
  | some b =>
    cases b with
    | false => simp [jsTruthyBool, hv]
    | true =>
      simp only [jsTruthyBool, hv, Bool.true_eq_false, if_false, Option.getD_some]
      rw [← hv]

theorem setLaunchOptions_eq (o : Options) (c : Config) (p : String) :
    setLaunchOptions o c p =
      { o with
          launchOptions :=
            some
              { args :=
                  if jsTruthyStr c.browser.proxyServer then
                    ["--proxy-server=" ++ c.browser.proxyServer.getD ""]
                  else [],
                executablePath := p,
                defaultViewport := c.browser.defaultViewport } } := by
  unfold setLaunchOptions
  cases h : jsTruthyStr c.browser.proxyServer <;> simp [h]

theorem parseViewport_eq (o : Options) :
    parseViewport o =
      { o with
          width :=
            if jsTruthyStr o.viewport then
              some (jsToNumberOpt ((splitOnChar 'x' (o.viewport.getD "").data).get? 0))
            else o.width,
          height :=
            if jsTruthyStr o.viewport then
              some (jsToNumberOpt ((splitOnChar 'x' (o.viewport.getD "").data).get? 1))
            else o.height } := by
  unfold parseViewport
  cases h : jsTruthyStr o.viewport <;> simp [h]

/-- C4: when browser discovery fails, `render` fails with the discovery
error itself, surfaced verbatim (not collapsed into the generic
`"capture website failed."` error), and the capture engine is never
invoked — the result is the same for every possible engine function. -/
theorem browser_not_found_propagates {β : Type} (e : JsError)
    (captureBuffer : String → Options → Except JsError β)
    (urlOrContent : String) (options : Options) (config : Option Config) :
    render (Except.error e) captureBuffer urlOrContent options config = Except.error e := rfl

/-- C5: when browser discovery succeeds and the capture engine's
buffer-producing call raises an error, `render` raises the single generic
`"capture website failed."` error whatever the engine error was; when the
engine succeeds, its image bytes are returned unchanged. -/
theorem engine_failure_collapsed {β : Type} (executablePath urlOrContent : String)
    (options : Options) (config : Option Config) :
    (∀ e : JsError,
        render (Except.ok executablePath)
          (fun _ _ => (Except.error e : Except JsError β)) urlOrContent options config =
          Except.error { message := "capture website failed." }) ∧
      (∀ image : β,
        render (Except.ok executablePath) (fun _ _ => Except.ok image)
          urlOrContent options config = Except.ok image) :=
  ⟨fun _ => rfl, fun _ => rfl⟩

theorem except_map_ok {ε α β : Type} (f : α → β) (a : α) :
    (Except.ok a : Except ε α).map f = Except.ok (f a) := rfl

/-- C1 (code evaluation): a caller-supplied `timeout` of `0` — which the
command's own help text says disables the timeout — is overwritten with
the default `60` by `makeOptions`, because `!options.timeout` is true
for `0`. -/
theorem timeout_zero_resolved_to_sixty :
    (makeOptions (Except.ok "chrome") { timeout := some (JsNum.num 0) }
          defaultConfig).map (fun r => r.timeout) =
      Except.ok (some (JsNum.num 60)) := by
  rfl

/-- C2 (counterexample): a caller-supplied `quality` of `0` with
`type = "jpeg"` is not kept: the resolved quality is `1`, refuting
"the resolved quality equals the caller-supplied value when one is
supplied". -/
theorem quality_zero_jpeg_overwritten :
    (makeOptions (Except.ok "chrome")
          { quality := some (JsNum.num 0), type := some ImgType.jpeg }
          defaultConfig).map (fun r => r.quality) =
        Except.ok (some (JsNum.num 1)) ∧
      (some (JsNum.num 1) : Option JsNum) ≠ some (JsNum.num 0) := by
  exact ⟨rfl, by decide⟩

/-- C2 (amended): the resolved quality equals the caller-supplied value
when a truthy (non-zero, non-NaN) one is supplied; when the caller value
is absent or falsy, quality is set to `1` if the resolved image format is
not png, and left at the caller value (hence unset when absent) if the
resolved image format is png. -/
theorem quality_resolution (executablePath : String) (o : Options) (c : Config) :
    (makeOptions (Except.ok executablePath) o c).map (fun r => r.quality) =
      Except.ok
        (if jsTruthyNum o.quality = false ∧ o.type.getD ImgType.png ≠ ImgType.png then
          some (JsNum.num 1)
        else o.quality) := by
  simp only [makeOptions, resolveViewport_eq, resolveScaleFactor_eq, resolveType_eq,
    resolveQuality_eq, resolveTimeout_eq, resolveDelay_eq, resolveDisableAnimations_eq,
    setLaunchOptions_eq, parseViewport_eq, except_map_ok]
  simp

/-- C6: after resolution, `launchOptions.args` is exactly the one-element
list `["--proxy-server=<proxyServer>"]` when the config has a truthy
(present, non-empty) `proxyServer`, and the empty list otherwise. -/
theorem proxy_args_spec (executablePath : String) (o : Options) (c : Config) :
    (makeOptions (Except.ok executablePath) o c).map
        (fun r => r.launchOptions.map (fun lo => lo.args)) =
      Except.ok
        (some
          (if jsTruthyStr c.browser.proxyServer then
            ["--proxy-server=" ++ c.browser.proxyServer.getD ""]
          else [])) := by
  simp only [makeOptions, resolveViewport_eq, resolveScaleFactor_eq, resolveType_eq,
    resolveQuality_eq, resolveTimeout_eq, resolveDelay_eq, resolveDisableAnimations_eq,
    setLaunchOptions_eq, parseViewport_eq, except_map_ok]
  simp

/-- C9: resolution changes only the defaulted and derived fields; every
caller-supplied pass-through field (fullPage, darkMode, waitForElement,
element, hideElements, removeElements, clickElement, scrollToElement,
noJavascript, script, style, header, userAgent, cookie, authentication,
clip, inset — and inputType, untouched by `makeOptions`) keeps exactly
the caller's value.  The source's in-place mutation is modelled by
explicit record threading. -/
theorem makeOptions_frame (executablePath : String) (o : Options) (c : Config) :
    (makeOptions (Except.ok executablePath) o c).map
        (fun r =>
          (r.fullPage, r.darkMode, r.waitForElement, r.element, r.hideElements,
            r.removeElements, r.clickElement, r.scrollToElement, r.noJavascript,
            r.script, r.style, r.header, r.userAgent, r.cookie, r.authentication,
            r.clip, r.inset, r.inputType)) =
      Except.ok
        (o.fullPage, o.darkMode, o.waitForElement, o.element, o.hideElements,
          o.removeElements, o.clickElement, o.scrollToElement, o.noJavascript,
          o.script, o.style, o.header, o.userAgent, o.cookie, o.authentication,
          o.clip, o.inset, o.inputType) := by
  simp only [makeOptions, resolveViewport_eq, resolveScaleFactor_eq, resolveType_eq,
    resolveQuality_eq, resolveTimeout_eq, resolveDelay_eq, resolveDisableAnimations_eq,
    setLaunchOptions_eq, parseViewport_eq, except_map_ok]

/-- C10: `render` sets `inputType` to `"html"` exactly when the
classifier deems the subject non-URL; for URL-like subjects the field is
left entirely unset (callers cannot supply it — it is not part of the
`Options` interface — so it starts out absent). -/
theorem inputType_resolution (executablePath subject : String) (o : Options)
    (config : Option Config) :
    (renderRequest (Except.ok executablePath) subject { o with inputType := none }
          config).map (fun r => r.inputType) =
      Except.ok (if isUrl subject then none else some "html") := by
  cases config <;>
    simp only [renderRequest, makeOptions, resolveViewport_eq, resolveScaleFactor_eq,
      resolveType_eq, resolveQuality_eq, resolveTimeout_eq, resolveDelay_eq,
      resolveDisableAnimations_eq, setLaunchOptions_eq, parseViewport_eq,
      except_map_ok] <;>
    split <;> rfl

attribute [ext] Options

theorem except_bind_ok {ε α β : Type} (f : α → Except ε β) (a : α) :
    (Except.ok a : Except ε α).bind f = f a := rfl

theorem str_data_append (s t : String) : (s ++ t).data = s.data ++ t.data := by
  cases s; cases t; rfl

theorem defaultViewportString_ne_empty (c : Config) : defaultViewportString c ≠ "" := by
  intro h
  have h2 := congrArg String.data h
  rw [defaultViewportString, str_data_append, str_data_append] at h2
  simp at h2

theorem resolvedViewportString_ne_empty (o : Options) (c : Config) :
    resolvedViewportString o c ≠ "" := by
  unfold resolvedViewportString
  cases h : jsTruthyStr o.viewport with
  | false => simp [defaultViewportString_ne_empty c]
  | true =>
    cases hv : o.viewport with
    | none => simp [jsTruthyStr, hv] at h
    | some s =>
      rw [hv] at h
      simp only [jsTruthyStr, decide_eq_true_eq] at h
      simpa [hv] using h

theorem resolvedViewportString_eq_self (r : Options) (c : Config) (s : String)
    (h2 : s ≠ "") (h1 : r.viewport = some s) : resolvedViewportString r c = s := by
  simp [resolvedViewportString, h1, jsTruthyStr, h2]

theorem jsTruthyNum_num (q : ℚ) : jsTruthyNum (some (JsNum.num q)) = decide (q ≠ 0) := rfl

/-- Closed form of the record produced by a successful `makeOptions` run,
proved equal to the pipeline in `makeOptions_ok`. -/
def resolvedOptions (executablePath : String) (o : Options) (c : Config) : Options :=
  { o with
      viewport := some (resolvedViewportString o c),
      scaleFactor :=
        if jsTruthyNum o.scaleFactor then o.scaleFactor
        else some (JsNum.num c.browser.defaultViewport.deviceScaleFactor),
      type := some (o.type.getD ImgType.png),
      quality :=
        if jsTruthyNum o.quality = false ∧ o.type.getD ImgType.png ≠ ImgType.png then
          some (JsNum.num 1)
        else o.quality,
      timeout := if jsTruthyNum o.timeout then o.timeout else some (JsNum.num 60),
      delay := if jsTruthyNum o.delay then o.delay else some (JsNum.num 0),
      disableAnimations := some (o.disableAnimations.getD false),
      launchOptions :=
        some
          { args :=
              if jsTruthyStr c.browser.proxyServer then
                ["--proxy-server=" ++ c.browser.proxyServer.getD ""]
              else [],
            executablePath := executablePath,
            defaultViewport := c.browser.defaultViewport },
      width :=
        some (jsToNumberOpt ((splitOnChar 'x' (resolvedViewportString o c).data).get? 0)),
      height :=
        some (jsToNumberOpt ((splitOnChar 'x' (resolvedViewportString o c).data).get? 1)) }

theorem makeOptions_ok (executablePath : String) (o : Options) (c : Config) :
    makeOptions (Except.ok executablePath) o c =
      Except.ok (resolvedOptions executablePath o c) := by
  have hvp := resolvedViewportString_ne_empty o c
  simp only [makeOptions, resolveViewport_eq, resolveScaleFactor_eq, resolveType_eq,
    resolveQuality_eq, resolveTimeout_eq, resolveDelay_eq, resolveDisableAnimations_eq,
    setLaunchOptions_eq, parseViewport_eq]
  refine congrArg Except.ok ?_
  unfold resolvedOptions
  ext : 1
  case quality => by_cases hT : o.type.getD ImgType.png = ImgType.png <;> simp [hT]
  case width => simp [jsTruthyStr, hvp]
  case height => simp [jsTruthyStr, hvp]
  all_goals rfl

theorem resolvedOptions_fix (executablePath : String) (o : Options) (c : Config) :
    resolvedOptions executablePath (resolvedOptions executablePath o c) c =
      resolvedOptions executablePath o c := by
  have hvp := resolvedViewportString_ne_empty o c
  have hRV : resolvedViewportString (resolvedOptions executablePath o c) c =
      resolvedViewportString o c :=
    resolvedViewportString_eq_self (resolvedOptions executablePath o c) c _ hvp rfl
  unfold resolvedOptions
  unfold resolvedOptions at hRV
  ext : 1
  case viewport => rw [hRV]
  case scaleFactor =>
    by_cases h : jsTruthyNum o.scaleFactor = true <;> simp [h]
  case type => simp
  case quality =>
    by_cases hT : o.type.getD ImgType.png = ImgType.png
    · simp [hT]
    · by_cases hq : jsTruthyNum o.quality = false
      · simp [hq, hT, jsTruthyNum_num]
      · simp [hq]
  case timeout =>
    by_cases h : jsTruthyNum o.timeout = true <;> simp [h, jsTruthyNum_num]
  case delay =>
    by_cases h : jsTruthyNum o.delay = true <;> simp [h, jsTruthyNum_num]
  case disableAnimations => simp
  case width => rw [hRV]
  case height => rw [hRV]
  all_goals rfl

/-- C8: resolution is idempotent (and, being modelled as a pure function
of the caller options, the config and the discovery result, trivially
deterministic): running `makeOptions` again on an already-resolved
request returns that request unchanged. -/
theorem makeOptions_idempotent (executablePath : String) (o : Options) (c : Config) :
    (makeOptions (Except.ok executablePath) o c).bind
        (fun r => makeOptions (Except.ok executablePath) r c) =
      makeOptions (Except.ok executablePath) o c := by
  rw [makeOptions_ok executablePath o c, except_bind_ok,
    makeOptions_ok executablePath (resolvedOptions executablePath o c) c,
    resolvedOptions_fix]

theorem splitOnChar_not_mem (sep : Char) (l : List Char) (h : sep ∉ l) :
    splitOnChar sep l = [l] := by
  induction l with
  | nil => rfl
  | cons c cs ih =>
    have hc : ¬(c = sep) := fun hcc => h (hcc ▸ List.mem_cons_self c cs)
    have hcs : sep ∉ cs := fun hm => h (List.mem_cons_of_mem c hm)
    simp only [splitOnChar, if_neg hc, ih hcs]

theorem splitOnChar_append (sep : Char) (ds hs : List Char) (h : sep ∉ ds) :
    splitOnChar sep (ds ++ sep :: hs) = ds :: splitOnChar sep hs := by
  induction ds with
  | nil => simp [splitOnChar]
  | cons c cs ih =>
    have hc : ¬(c = sep) := fun hcc => h (hcc ▸ List.mem_cons_self c cs)
    have hcs : sep ∉ cs := fun hm => h (List.mem_cons_of_mem c hm)
    simp only [List.cons_append, splitOnChar, List.append_eq, if_neg hc, ih hcs]

theorem x_not_mem_digits (l : List Char) (h : l.all Char.isDigit = true) : 'x' ∉ l :=
  fun hm => absurd (List.all_eq_true.mp h _ hm) (by decide)

theorem jsToNumber_digits (l : List Char) (h1 : l ≠ []) (h2 : l.all Char.isDigit = true) :
    jsToNumber l = JsNum.num (digitsVal l) := by
  simp [jsToNumber, h1, h2]

/-- C7: resolution splits the resolved viewport string at `'x'` and
stores the numeric parse of the first two segments as the request's
`width` and `height`: resolution never fails on any viewport string
(findChrome succeeding), well-formed `"<width>x<height>"` digit strings
parse to the written numbers, and non-numeric segments (witnessed by
`"axb"`) yield NaN values propagated to the engine instead of an error. -/
theorem viewport_parse_spec (executablePath : String) (o : Options) (c : Config)
    (ds hs : List Char)
    (hvp : o.viewport = some (String.mk (ds ++ 'x' :: hs)))
    (hd1 : ds ≠ []) (hd2 : ds.all Char.isDigit = true)
    (hh1 : hs ≠ []) (hh2 : hs.all Char.isDigit = true) :
    (makeOptions (Except.ok executablePath) o c).toOption.isSome = true ∧
      (makeOptions (Except.ok executablePath) o c).map (fun r => (r.width, r.height)) =
        Except.ok (some (JsNum.num (digitsVal ds)), some (JsNum.num (digitsVal hs))) ∧
      (makeOptions (Except.ok executablePath) { o with viewport := some "axb" } c).map
          (fun r => (r.width, r.height)) =
        Except.ok (some JsNum.nan, some JsNum.nan) := by
  have hne : String.mk (ds ++ 'x' :: hs) ≠ "" := by
    intro hq
    have := congrArg String.data hq
    simp at this
  have hRV : resolvedViewportString o c = String.mk (ds ++ 'x' :: hs) :=
    resolvedViewportString_eq_self o c _ hne hvp
  have hax : resolvedViewportString { o with viewport := some "axb" } c = "axb" :=
    resolvedViewportString_eq_self _ c _ (by decide) rfl
  refine ⟨by rw [makeOptions_ok]; rfl, ?_, ?_⟩
  · rw [makeOptions_ok, except_map_ok]
    simp only [resolvedOptions, hRV]
    rw [splitOnChar_append 'x' ds hs (x_not_mem_digits ds hd2),
      splitOnChar_not_mem 'x' hs (x_not_mem_digits hs hh2)]
    simp [jsToNumberOpt, jsToNumber_digits ds hd1 hd2, jsToNumber_digits hs hh1 hh2]
  · rw [makeOptions_ok, except_map_ok]
    simp only [resolvedOptions, hax]
    rfl

/-- Witness for C7 at the concrete viewport strings `"12x34"` and `"axb"`. -/
theorem viewport_parse_spec_witness :
    (makeOptions (Except.ok "chrome") { viewport := some "12x34" }
          defaultConfig).toOption.isSome = true ∧
      (makeOptions (Except.ok "chrome") { viewport := some "12x34" } defaultConfig).map
          (fun r => (r.width, r.height)) =
        Except.ok (some (JsNum.num 12), some (JsNum.num 34)) ∧
      (makeOptions (Except.ok "chrome")
            { ({ viewport := some "12x34" } : Options) with viewport := some "axb" }
            defaultConfig).map (fun r => (r.width, r.height)) =
        Except.ok (some JsNum.nan, some JsNum.nan) := by
  have h := viewport_parse_spec "chrome" { viewport := some "12x34" } defaultConfig
    ['1', '2'] ['3', '4'] (by decide) (by decide) (by decide) (by decide) (by decide)
  refine ⟨h.1, ?_, h.2.2⟩
  rw [h.2.1]
  refine congrArg Except.ok ?_
  decide

theorem nullable_iff (r : RE) : nullable r = true ↔ Matches r [] := by
  induction r with
  | emp => simp [nullable, Matches]
  | eps => simp [nullable, Matches]
  | chr c => simp [nullable, Matches]
  | cat a b iha ihb =>
    simp only [nullable, Bool.and_eq_true, iha, ihb, Matches]
    constructor
    · rintro ⟨ha, hb⟩
      exact ⟨[], [], rfl, ha, hb⟩
    · rintro ⟨u, v, huv, hu, hv⟩
      obtain ⟨hu0, hv0⟩ := List.append_eq_nil.mp huv.symm
      subst hu0
      subst hv0
      exact ⟨hu, hv⟩
  | alt a b iha ihb =>
    simp [nullable, Matches, iha, ihb]

theorem matches_rderiv (r : RE) (c : Char) (s : List Char) :
    Matches (rderiv r c) s ↔ Matches r (c :: s) := by
  induction r generalizing s with
  | emp => simp [rderiv, Matches]
  | eps => simp [rderiv, Matches]
  | chr d => by_cases h : c = d <;> simp [rderiv, Matches, h]
  | cat a b iha ihb =>
    by_cases hn : nullable a = true
    · simp only [rderiv, hn, if_true, Matches, iha, ihb]
      constructor
      · rintro (⟨u, v, huv, hu, hv⟩ | hb)
        · exact ⟨c :: u, v, by simp [huv], hu, hv⟩
        · exact ⟨[], c :: s, rfl, (nullable_iff a).mp hn, hb⟩
      · rintro ⟨u, v, huv, hu, hv⟩
        cases u with
        | nil =>
          rw [List.nil_append] at huv
          subst huv
          exact Or.inr hv
        | cons u0 u' =>
          rw [List.cons_append] at huv
          injection huv with hc hs
          subst hc
          exact Or.inl ⟨u', v, hs, hu, hv⟩
    · simp only [rderiv, hn, if_false, Matches, iha]
      constructor
      · rintro ⟨u, v, huv, hu, hv⟩
        exact ⟨c :: u, v, by simp [huv], hu, hv⟩
      · rintro ⟨u, v, huv, hu, hv⟩
        cases u with
        | nil => exact absurd ((nullable_iff a).mpr hu) hn
        | cons u0 u' =>
          rw [List.cons_append] at huv
          injection huv with hc hs
          subst hc
          exact ⟨u', v, hs, hu, hv⟩
  | alt a b iha ihb =>
    simp [rderiv, Matches, iha, ihb]

theorem reTest_iff (r : RE) (s : List Char) :
    reTest r s = true ↔ ∃ p, p <+: s ∧ Matches r p := by
  induction s generalizing r with
  | nil =>
    simp only [reTest, nullable_iff]
    constructor
    · intro h
      exact ⟨[], ⟨[], rfl⟩, h⟩
    · rintro ⟨p, ⟨t, ht⟩, hm⟩
      obtain ⟨hp, -⟩ := List.append_eq_nil.mp ht
      subst hp
      exact hm
  | cons c cs ih =>
    simp only [reTest, Bool.or_eq_true, nullable_iff, ih]
    constructor
    · rintro (h | ⟨p, ⟨t, ht⟩, hm⟩)
      · exact ⟨[], ⟨c :: cs, rfl⟩, h⟩
      · refine ⟨c :: p, ⟨t, ?_⟩, (matches_rderiv r c p).mp hm⟩
        rw [List.cons_append, ht]
    · rintro ⟨p, ⟨t, ht⟩, hm⟩
      cases p with
      | nil => exact Or.inl hm
      | cons p0 p' =>
        rw [List.cons_append] at ht
        injection ht with hc hs
        exact Or.inr ⟨p', ⟨t, hs⟩, (matches_rderiv r c p').mpr (by rw [← hc]; exact hm)⟩

theorem matches_lit (w s : List Char) : Matches (lit w) s ↔ s = w := by
  induction w generalizing s with
  | nil => simp [lit, Matches]
  | cons c cs ih =>
    simp only [lit, Matches, ih]
    constructor
    · rintro ⟨u, v, huv, hu, hv⟩
      subst hu
      subst hv
      simpa using huv
    · rintro rfl
      exact ⟨[c], cs, rfl, rfl, rfl⟩

theorem matches_urlRE (p : List Char) :
    Matches urlRE p ↔
      p = "http://".data ∨ p = "https://".data ∨ p = "file://".data ∨
        p = "data:".data := by
  simp only [urlRE, Matches, matches_lit]
  constructor
  · rintro (⟨u, v, huv, ⟨a, b, hab, ha, hb | hb⟩ | hu, hv⟩ | hp)
    · have ha2 : a = "http".data := (matches_lit "http".data a).mp ha
      have hv2 : v = "://".data := (matches_lit "://".data v).mp hv
      subst ha2; subst hb; subst hab; subst hv2; subst huv
      exact Or.inr (Or.inl (by decide))
    · have ha2 : a = "http".data := (matches_lit "http".data a).mp ha
      have hv2 : v = "://".data := (matches_lit "://".data v).mp hv
      subst ha2; subst hb; subst hab; subst hv2; subst huv
      exact Or.inl (by decide)
    · have hu2 : u = "file".data := (matches_lit "file".data u).mp hu
      have hv2 : v = "://".data := (matches_lit "://".data v).mp hv
      subst hu2; subst hv2; subst huv
      exact Or.inr (Or.inr (Or.inl (by decide)))
    · exact Or.inr (Or.inr (Or.inr ((matches_lit "data:".data p).mp hp)))
  · rintro (rfl | rfl | rfl | rfl)
    · exact Or.inl ⟨"http".data, "://".data, by decide,
        Or.inl ⟨"http".data, [], by decide,
          (matches_lit "http".data "http".data).mpr rfl, Or.inr rfl⟩,
        (matches_lit "://".data "://".data).mpr rfl⟩
    · exact Or.inl ⟨"https".data, "://".data, by decide,
        Or.inl ⟨"http".data, ['s'], by decide,
          (matches_lit "http".data "http".data).mpr rfl, Or.inl rfl⟩,
        (matches_lit "://".data "://".data).mpr rfl⟩
    · exact Or.inl ⟨"file".data, "://".data, by decide,
        Or.inr ((matches_lit "file".data "file".data).mpr rfl),
        (matches_lit "://".data "://".data).mpr rfl⟩
    · exact Or.inr ((matches_lit "data:".data "data:".data).mpr rfl)

/-- C3: the input classifier returns `Url` (true) exactly when the
subject string starts with `http://`, `https://`, `file://`, or `data:`
(case-sensitive scheme prefixes, checked only at the start of the
string), and `Html` (false) otherwise. -/
theorem isUrl_spec (s : String) :
    isUrl s = true ↔
      ("http://".data <+: s.data ∨ "https://".data <+: s.data ∨
        "file://".data <+: s.data ∨ "data:".data <+: s.data) := by
  unfold isUrl
  rw [reTest_iff]
  constructor
  · rintro ⟨p, hp, hm⟩
    rcases (matches_urlRE p).mp hm with rfl | rfl | rfl | rfl
    · exact Or.inl hp
    · exact Or.inr (Or.inl hp)
    · exact Or.inr (Or.inr (Or.inl hp))
    · exact Or.inr (Or.inr (Or.inr hp))
  · rintro (hp | hp | hp | hp)
    · exact ⟨_, hp, (matches_urlRE _).mpr (Or.inl rfl)⟩
    · exact ⟨_, hp, (matches_urlRE _).mpr (Or.inr (Or.inl rfl))⟩
    · exact ⟨_, hp, (matches_urlRE _).mpr (Or.inr (Or.inr (Or.inl rfl)))⟩
    · exact ⟨_, hp, (matches_urlRE _).mpr (Or.inr (Or.inr (Or.inr rfl)))⟩
